import Mathlib

/-!
Verification model of the crypto-tracker streaming core.

The definitions below are shallow embeddings of the TypeScript sources:
the backend data service and WebSocket server (backend/src), and the
mobile WebSocket manager and FlatBuffers adapter (mobile/src).  JS numbers
are modelled as exact rationals (prices, times in ms) or integers
(timestamps, latencies); counters are naturals.  Wherever a JS value can
be undefined at runtime (fields read from parsed JSON), the model uses
Option, with none standing for undefined.
-/

namespace Backend

/-- CryptoData (backend/src/types/models.ts): one priced instrument. -/
structure CryptoData where
  symbol : String
  name : String
  price : ℚ
  priceChange24h : ℚ
  marketCap : ℚ
  volume24h : ℚ
  high24h : ℚ
  low24h : ℚ
  lastUpdated : Int
deriving DecidableEq, Repr

/-- CryptoDataService.getFilteredPrices: empty symbol list returns the
current snapshot unchanged, otherwise keeps the records whose symbol is
in the list.  The service's own current snapshot (getCurrentPrices) is
passed in as currentPrices. -/
def getFilteredPrices (symbols : List String) (currentPrices : List CryptoData) :
    List CryptoData :=
  if symbols.length = 0 then
    currentPrices
  else
    currentPrices.filter (fun crypto => symbols.contains crypto.symbol)

/-- Static mutable state of the backend FlatBuffersAdapter class:
frameCounter, totalEncodeTime, totalEncoded (all initialized to 0). -/
structure EncoderState where
  frameCounter : Nat
  totalEncodeTime : ℚ
  totalEncoded : Nat
deriving DecidableEq, Repr

/-- Observable content of one encoded WorldState frame: the record vector,
frame_id, timestamp and total_cryptos fields written by encode. -/
structure EncodedFrame where
  cryptos : List CryptoData
  frameId : Nat
  timestamp : Int
  totalCryptos : Nat
deriving DecidableEq, Repr

/-- FlatBuffersAdapter.encode (backend): builds a WorldState frame whose
frameId is the current frameCounter (post-incremented), whose timestamp is
Date.now() at encode time (passed in as now), and whose totalCryptos is
the length of the record array passed in; it also accumulates the measured
encode time and bumps totalEncoded.  The byte-level FlatBuffers layout is
not modelled; the frame's field values are. -/
def FlatBuffersAdapter.encode (cryptos : List CryptoData) (now : Int)
    (encodeTime : ℚ) (st : EncoderState) : EncodedFrame × EncoderState :=
  ({ cryptos := cryptos
     frameId := st.frameCounter
     timestamp := now
     totalCryptos := cryptos.length },
   { frameCounter := st.frameCounter + 1
     totalEncodeTime := st.totalEncodeTime + encodeTime
     totalEncoded := st.totalEncoded + 1 })

/-- Result shape of FlatBuffersAdapter.getMetrics (backend). -/
structure EncoderMetrics where
  averageEncodeTime : ℚ
  totalEncoded : Nat
  currentFrameId : Nat
deriving DecidableEq, Repr

/-- FlatBuffersAdapter.getMetrics (backend). -/
def FlatBuffersAdapter.getMetrics (st : EncoderState) : EncoderMetrics :=
  { averageEncodeTime :=
      if st.totalEncoded > 0 then st.totalEncodeTime / (st.totalEncoded : ℚ) else 0
    totalEncoded := st.totalEncoded
    currentFrameId := st.frameCounter }

/-- FlatBuffersAdapter.resetMetrics (backend): zeroes all three statics. -/
def FlatBuffersAdapter.resetMetrics : EncoderState :=
  { frameCounter := 0, totalEncodeTime := 0, totalEncoded := 0 }

/-- Arguments of one encode call: the (post-filter) record list handed to
encode, the wall-clock time, and the measured encode duration. -/
structure EncodeCall where
  cryptos : List CryptoData
  now : Int
  encodeTime : ℚ
deriving DecidableEq, Repr

/-- Runs a sequence of encode calls against the shared static encoder
state, collecting the emitted frames (calls may come from any mix of
connections; the state is class-static and shared). -/
def encodeAll : List EncodeCall → EncoderState → List EncodedFrame × EncoderState
  | [], st => ([], st)
  | c :: cs, st =>
    let r := FlatBuffersAdapter.encode c.cryptos c.now c.encodeTime st
    let rest := encodeAll cs r.2
    (r.1 :: rest.1, rest.2)

/-- Runtime shape of a parsed JSON command payload.  The TypeScript
declarations promise symbols to be a string array and frequency one of
10 | 20 | 30, but JSON.parse enforces neither: either field may be absent
(none) or carry any number; frequency is therefore an unconstrained Int
here. -/
structure CommandPayload where
  symbols : Option (List String)
  frequency : Option Int
deriving DecidableEq, Repr

/-- Runtime shape of a parsed JSON message object: a type field that is a
string (none when absent or not a string) and an optional payload. -/
structure IncomingMessage where
  type : Option String
  payload : Option CommandPayload
deriving DecidableEq, Repr

/-- isClientCommand (backend/src/types/commands.ts): object with a string
type and a defined payload.  It does not check the type string against the
recognized command identifiers. -/
def isClientCommand (data : IncomingMessage) : Bool :=
  data.type.isSome && data.payload.isSome

/-- isFilterCoinsCommand type guard. -/
def isFilterCoinsCommand (cmd : IncomingMessage) : Bool :=
  cmd.type == some "FILTER_COINS"

/-- isChangeFrequencyCommand type guard. -/
def isChangeFrequencyCommand (cmd : IncomingMessage) : Bool :=
  cmd.type == some "CHANGE_FREQUENCY"

/-- isGetMetricsCommand type guard. -/
def isGetMetricsCommand (cmd : IncomingMessage) : Bool :=
  cmd.type == some "GET_METRICS"

/-- ClientFilter (backend/src/types/models.ts) as it exists at runtime.
Declared as string[] and number, but handleCommand assigns payload fields
verbatim, so after a command with a missing payload field either may be
undefined (none).  A fresh connection starts with some [] / some 10. -/
structure ClientFilter where
  symbols : Option (List String)
  frequency : Option Int
deriving DecidableEq, Repr

/-- Default per-connection filter created in handleConnection:
symbols = [] (empty = all coins), frequency = DEFAULT_FREQUENCY = 10 Hz. -/
def defaultClientFilter : ClientFilter :=
  { symbols := some [], frequency := some 10 }

/-- ServerResponse (backend/src/types/commands.ts): the four JSON response
variants the server can send. -/
inductive ServerResponse where
  | filterApplied (symbols : Option (List String)) (appliedAt : Int)
  | frequencyChanged (frequency : Option Int) (appliedAt : Int)
  | metricsReport (activeConnections : Nat) (messagesPerSecond : ℚ)
      (totalMessagesSent : Nat) (uptime : Int)
  | error (message : String) (code : Option String)
deriving DecidableEq, Repr

/-- Server-wide counters read by the GET_METRICS branch. -/
structure ServerStats where
  activeConnections : Nat
  messagesPerSecond : ℚ
  totalMessagesSent : Nat
  uptime : Int
deriving DecidableEq, Repr

/-- Observable outcome of handling one inbound message: the connection's
filter afterwards, the JSON responses sent back on that connection, and
whether the repeating data-stream interval was cancelled and restarted. -/
structure HandleResult where
  filter : ClientFilter
  responses : List ServerResponse
  streamRestarted : Bool
deriving DecidableEq, Repr

/-- CryptoWebSocketServer.handleCommand: three if-branches on the type
guards.  FILTER_COINS stores payload.symbols and acks FILTER_APPLIED;
CHANGE_FREQUENCY stores payload.frequency (no membership validation),
clears the existing interval, restarts the stream, and acks
FREQUENCY_CHANGED; GET_METRICS answers METRICS.  Any other type string
falls through all three branches and produces nothing. -/
def handleCommand (cmd : IncomingMessage) (filter : ClientFilter)
    (now : Int) (stats : ServerStats) : HandleResult :=
  if isFilterCoinsCommand cmd then
    let syms := cmd.payload.bind (fun p => p.symbols)
    { filter := { filter with symbols := syms }
      responses := [ServerResponse.filterApplied syms now]
      streamRestarted := false }
  else if isChangeFrequencyCommand cmd then
    let freq := cmd.payload.bind (fun p => p.frequency)
    { filter := { filter with frequency := freq }
      responses := [ServerResponse.frequencyChanged freq now]
      streamRestarted := true }
  else if isGetMetricsCommand cmd then
    { filter := filter
      responses := [ServerResponse.metricsReport stats.activeConnections
        stats.messagesPerSecond stats.totalMessagesSent stats.uptime]
      streamRestarted := false }
  else
    { filter := filter, responses := [], streamRestarted := false }

/-- Classification of one raw inbound text frame as handleMessage sees it:
text not starting with a brace (logged, ignored), text starting with a
brace that JSON.parse rejects (caught, answered with a parse error), or a
successfully parsed object. -/
inductive RawMessage where
  | nonJson
  | unparsable
  | parsed (m : IncomingMessage)
deriving DecidableEq, Repr

/-- CryptoWebSocketServer.handleMessage: parse failures are answered with
an untyped parse error; parsed objects failing isClientCommand get the
invalid-format error; objects passing it go to handleCommand. -/
def handleMessage (raw : RawMessage) (filter : ClientFilter)
    (now : Int) (stats : ServerStats) : HandleResult :=
  match raw with
  | RawMessage.nonJson => { filter := filter, responses := [], streamRestarted := false }
  | RawMessage.unparsable =>
    { filter := filter
      responses := [ServerResponse.error "Failed to parse message" none]
      streamRestarted := false }
  | RawMessage.parsed m =>
    if isClientCommand m then
      handleCommand m filter now stats
    else
      { filter := filter
        responses := [ServerResponse.error "Invalid command format" none]
        streamRestarted := false }

/-- Interval in ms of the repeating data stream started by
startDataStream for a defined frequency: 1000 / frequency. -/
def startDataStreamIntervalMs (frequency : Int) : ℚ :=
  1000 / (frequency : ℚ)

end Backend

namespace Mobile

/-- Error taxonomy named by the specification for the frame codec.  The
mobile code itself defines no such type; the thrown constructor stands for
a raised JS Error carrying a message, which is the only failure the code
produces. -/
inductive DecodeError where
  | truncated
  | malformed
  | unknownType
  | invalidPayload
  | thrown (message : String)
deriving DecidableEq, Repr

/-- CryptoViewModel (mobile/src/core/types/viewModels.ts). -/
structure CryptoViewModel where
  symbol : String
  name : String
  price : ℚ
  priceChange24h : ℚ
  marketCap : ℚ
  volume24h : ℚ
  high24h : ℚ
  low24h : ℚ
  lastUpdated : Int
deriving DecidableEq, Repr

/-- WorldStateViewModel (mobile/src/core/types/viewModels.ts). -/
structure WorldStateViewModel where
  cryptos : List CryptoViewModel
  frameId : Int
  timestamp : Int
  totalCryptos : Int
deriving DecidableEq, Repr

/-- FlatBuffersAdapter.decode (mobile): wraps the FlatBuffers root parse
and view-model conversion (getRootAsWorldState + toViewModel; the parse
itself is flatbuffers library code outside this repository, abstracted
here as the getRootAndConvert argument, whose Except.error case stands
for a thrown JS exception) in a try/catch whose catch rethrows every
failure as the single generic Error with message
"Failed to decode binary data".  No other error value is ever produced. -/
def FlatBuffersAdapter.decode
    (getRootAndConvert : List Nat → Except String WorldStateViewModel)
    (buffer : List Nat) : Except DecodeError WorldStateViewModel :=
  match getRootAndConvert buffer with
  | Except.ok vm => Except.ok vm
  | Except.error _ => Except.error (DecodeError.thrown "Failed to decode binary data")

/-- FlatBuffersAdapter.isValidBuffer (mobile): rejects buffers shorter
than 8 bytes, accepts everything else.  Note decode never calls it. -/
def FlatBuffersAdapter.isValidBuffer (buffer : List Nat) : Bool :=
  if buffer.length < 8 then false else true

/-- Reconnect backoff fields of WebSocketManager: the delay the next
scheduled reconnect will use and the attempt counter. -/
structure ReconnectState where
  currentReconnectDelay : Nat
  reconnectAttempts : Nat
deriving DecidableEq, Repr

/-- Field initializer reconnectDelay = 2000 ms (the backoff base). -/
def WebSocketManager.reconnectDelay : Nat := 2000

/-- Field initializer maxReconnectDelay = 30000 ms (the backoff cap). -/
def WebSocketManager.maxReconnectDelay : Nat := 30000

/-- Initial values of the backoff fields: currentReconnectDelay = 2000,
reconnectAttempts = 0. -/
def WebSocketManager.initialReconnectState : ReconnectState :=
  { currentReconnectDelay := WebSocketManager.reconnectDelay
    reconnectAttempts := 0 }

/-- WebSocketManager.scheduleReconnect: increments the attempt counter,
schedules the reconnect after the current delay (returned first), then
doubles the delay capped at maxReconnectDelay. -/
def WebSocketManager.scheduleReconnect (st : ReconnectState) : Nat × ReconnectState :=
  (st.currentReconnectDelay,
   { currentReconnectDelay :=
       min (st.currentReconnectDelay * 2) WebSocketManager.maxReconnectDelay
     reconnectAttempts := st.reconnectAttempts + 1 })

/-- Backoff effect of the onopen handler: currentReconnectDelay is reset
to the base reconnectDelay and reconnectAttempts to 0. -/
def WebSocketManager.onOpenBackoffReset (_st : ReconnectState) : ReconnectState :=
  { currentReconnectDelay := WebSocketManager.reconnectDelay
    reconnectAttempts := 0 }

/-- Delays used by n consecutive scheduleReconnect calls (n consecutive
connection failures with no intervening successful open). -/
def reconnectDelaysFrom : Nat → ReconnectState → List Nat
  | 0, _ => []
  | n + 1, st =>
    let r := WebSocketManager.scheduleReconnect st
    r.1 :: reconnectDelaysFrom n r.2

/-- ConnectionStatus values stored in connectionStatusAtom. -/
inductive ConnStatus where
  | DISCONNECTED
  | CONNECTING
  | CONNECTED
  | RECONNECTING
  | ERROR
deriving DecidableEq, Repr

/-- Connection-lifecycle state of WebSocketManager: the published status,
whether this.ws currently references a live socket, the pending reconnect
timeout (none when null; some d records the scheduled delay), and the
backoff fields. -/
structure ManagerState where
  status : ConnStatus
  wsLive : Bool
  reconnectTimer : Option Nat
  backoff : ReconnectState
deriving DecidableEq, Repr

/-- Lifecycle events: local connect and disconnect calls, the socket
open / close / error callbacks, and the reconnect timer firing.  The
ctorThrows flag on connectCall and timerFire tells whether the WebSocket
constructor throws inside connect's try block. -/
inductive MgrEvent where
  | connectCall (ctorThrows : Bool)
  | openEvt
  | closeEvt (code : Nat)
  | errorEvt
  | timerFire (ctorThrows : Bool)
  | disconnectCall
deriving DecidableEq, Repr

/-- scheduleReconnect at the manager level: clears any pending timeout
(overwritten), bumps the attempt counter, publishes RECONNECTING, sets a
timeout for the current delay, and doubles the stored delay. -/
def scheduleStep (st : ManagerState) : ManagerState :=
  let r := WebSocketManager.scheduleReconnect st.backoff
  { st with backoff := r.2, reconnectTimer := some r.1, status := ConnStatus.RECONNECTING }

/-- WebSocketManager.connect: publishes CONNECTING and opens a socket;
if the constructor throws, publishes ERROR and schedules a reconnect. -/
def connectStep (ctorThrows : Bool) (st : ManagerState) : ManagerState :=
  let st1 := { st with status := ConnStatus.CONNECTING }
  if ctorThrows then
    scheduleStep { st1 with status := ConnStatus.ERROR }
  else
    { st1 with wsLive := true }

/-- One step of the manager per event, transcribing connect, disconnect
and the onopen / onclose / onerror handlers.  onclose publishes
DISCONNECTED and schedules a reconnect unless the close code is 1000
(normal closure); onerror only publishes ERROR; a cleared timeout never
fires, so timerFire with no pending timer is a no-op; disconnect clears
the pending timeout, closes the socket with code 1000 and publishes
DISCONNECTED. -/
def step (st : ManagerState) : MgrEvent → ManagerState
  | MgrEvent.connectCall b => connectStep b st
  | MgrEvent.openEvt =>
    { st with status := ConnStatus.CONNECTED
              backoff := WebSocketManager.onOpenBackoffReset st.backoff }
  | MgrEvent.closeEvt code =>
    let st1 := { st with status := ConnStatus.DISCONNECTED, wsLive := false }
    if code = 1000 then st1 else scheduleStep st1
  | MgrEvent.errorEvt => { st with status := ConnStatus.ERROR }
  | MgrEvent.timerFire b =>
    match st.reconnectTimer with
    | none => st
    | some _ => connectStep b { st with reconnectTimer := none }
  | MgrEvent.disconnectCall =>
    { st with reconnectTimer := none, wsLive := false, status := ConnStatus.DISCONNECTED }

/-- Latency-related fields of the object WebSocketManager.calculateMetrics
returns.  maxLatency is Option Int because Math.max of an empty spread is
-Infinity and the code stores it unguarded (none stands for that
sentinel); minLatency is guarded against +Infinity and so is a plain Int.
The throughput, frame-rate, deserialization and connection fields of the
returned object do not depend on the latency samples and are outside the
claims modelled here. -/
structure TrackerMetrics where
  latencyP50 : Int
  latencyP95 : Int
  latencyP99 : Int
  averageLatency : ℚ
  maxLatency : Option Int
  minLatency : Int
deriving DecidableEq, Repr

/-- WebSocketManager.calculateMetrics (latency part): sorts a copy of the
samples ascending, indexes it at Math.floor(count * p) for p in 0.5, 0.95,
0.99 with a fallback of 0 when the lookup is undefined (the JS idiom
sorted[i] with a zero default; for a present value 0 the default agrees),
averages the unsorted samples guarding count = 0, and takes min/max with
the Infinity guards described on TrackerMetrics.  The index is written as
the natural division count * k / 100, which equals the exact floor of
count times k/100 for every count; the JS double computation
Math.floor(count * 0.5 or 0.95 or 0.99) also agrees with it for every
count up to MAX_SAMPLES = 1000, the largest the trimmed sample window can
reach. -/
def WebSocketManager.calculateMetrics (latencySamples : List Int) : TrackerMetrics :=
  let sorted := latencySamples.insertionSort (fun a b => a ≤ b)
  let count := sorted.length
  { latencyP50 := (sorted[count * 50 / 100]?).getD 0
    latencyP95 := (sorted[count * 95 / 100]?).getD 0
    latencyP99 := (sorted[count * 99 / 100]?).getD 0
    averageLatency := if count > 0 then (latencySamples.sum : ℚ) / (count : ℚ) else 0
    maxLatency := latencySamples.max?
    minLatency := (latencySamples.min?).getD 0 }

/-- MAX_SAMPLES = 1000: capacity of the latency sample window. -/
def WebSocketManager.MAX_SAMPLES : Nat := 1000

/-- Sample-window update in trackPerformance: push the new latency and
shift out the oldest sample once the window exceeds MAX_SAMPLES. -/
def trackLatencySample (latencySamples : List Int) (latency : Int) : List Int :=
  let pushed := latencySamples ++ [latency]
  if pushed.length > WebSocketManager.MAX_SAMPLES then pushed.tail else pushed

/-- Nearest-rank percentile as the specification words it: sort ascending,
index at the floor of p times the count clamped to the range 0..count-1,
and 0 for the empty sample set.  Stated from the spec, for comparison with
the code's calculateMetrics. -/
def percentileSpec (p : ℚ) (samples : List Int) : Int :=
  let sorted := samples.insertionSort (fun a b => a ≤ b)
  let count := sorted.length
  if count = 0 then 0
  else (sorted[min (Nat.floor (p * (count : ℚ))) (count - 1)]?).getD 0

end Mobile

/-! Helper lemmas about the encoder run. -/

theorem encodeAll_fst_length (calls : List Backend.EncodeCall) (st : Backend.EncoderState) :
    (Backend.encodeAll calls st).1.length = calls.length := by
  induction calls generalizing st with
  | nil => rfl
  | cons c cs ih => simp [Backend.encodeAll, ih]

theorem encodeAll_get_frameId (calls : List Backend.EncodeCall) (st : Backend.EncoderState)
    (i : Nat) (h : i < (Backend.encodeAll calls st).1.length) :
    ((Backend.encodeAll calls st).1.get ⟨i, h⟩).frameId = st.frameCounter + i := by
  induction calls generalizing st i with
  | nil => simp [Backend.encodeAll] at h
  | cons c cs ih =>
    cases i with
    | zero => rfl
    | succ j =>
      have hj : j < (Backend.encodeAll cs
          (Backend.FlatBuffersAdapter.encode c.cryptos c.now c.encodeTime st).2).1.length := by
        simpa [Backend.encodeAll] using h
      have := ih (Backend.FlatBuffersAdapter.encode c.cryptos c.now c.encodeTime st).2 j hj
      simpa [Backend.encodeAll, Backend.FlatBuffersAdapter.encode, Nat.add_assoc,
        Nat.add_comm 1 j] using this

theorem encodeAll_get_totalCryptos (calls : List Backend.EncodeCall) (st : Backend.EncoderState)
    (i : Nat) (h : i < (Backend.encodeAll calls st).1.length) :
    ((Backend.encodeAll calls st).1.get ⟨i, h⟩).totalCryptos =
      ((Backend.encodeAll calls st).1.get ⟨i, h⟩).cryptos.length := by
  induction calls generalizing st i with
  | nil => simp [Backend.encodeAll] at h
  | cons c cs ih =>
    cases i with
    | zero => rfl
    | succ j =>
      have hj : j < (Backend.encodeAll cs
          (Backend.FlatBuffersAdapter.encode c.cryptos c.now c.encodeTime st).2).1.length := by
        simpa [Backend.encodeAll] using h
      simpa [Backend.encodeAll] using
        ih (Backend.FlatBuffersAdapter.encode c.cryptos c.now c.encodeTime st).2 j hj

theorem encodeAll_snd_counters (calls : List Backend.EncodeCall) (st : Backend.EncoderState) :
    (Backend.encodeAll calls st).2.frameCounter = st.frameCounter + calls.length ∧
    (Backend.encodeAll calls st).2.totalEncoded = st.totalEncoded + calls.length := by
  induction calls generalizing st with
  | nil => simp [Backend.encodeAll]
  | cons c cs ih =>
    have := ih (Backend.FlatBuffersAdapter.encode c.cryptos c.now c.encodeTime st).2
    simpa [Backend.encodeAll, Backend.FlatBuffersAdapter.encode,
      Nat.add_assoc, Nat.add_comm 1] using this

/-- C5: applying an empty symbol set returns the full record list
unmodified; applying a non-empty symbol set returns exactly the records
whose symbol is in the set, preserving the source order (the result is a
sublist of the source list, and a record is in it iff it is a source
record whose symbol is in the set). -/
theorem c5_filter_semantics (currentPrices : List Backend.CryptoData) (symbols : List String) :
    Backend.getFilteredPrices [] currentPrices = currentPrices ∧
    (symbols ≠ [] →
      List.Sublist (Backend.getFilteredPrices symbols currentPrices) currentPrices ∧
      ∀ c : Backend.CryptoData,
        c ∈ Backend.getFilteredPrices symbols currentPrices ↔
          c ∈ currentPrices ∧ symbols.contains c.symbol = true) := by
  constructor
  · simp [Backend.getFilteredPrices]
  · intro hne
    have hlen : ¬ symbols.length = 0 := by
      simpa [List.length_eq_zero] using hne
    constructor
    · simp only [Backend.getFilteredPrices, hlen, if_false]
      exact List.filter_sublist (l := currentPrices)
    · intro c
      simp [Backend.getFilteredPrices, hlen, List.mem_filter]

/-- Two concrete records used to instantiate the universally quantified
theorems at explicit inputs. -/
def demoBTC : Backend.CryptoData :=
  { symbol := "BTC", name := "Bitcoin", price := 45000, priceChange24h := 2
    marketCap := 1000, volume24h := 500, high24h := 46000, low24h := 44000
    lastUpdated := 0 }

def demoETH : Backend.CryptoData :=
  { symbol := "ETH", name := "Ethereum", price := 2500, priceChange24h := -1
    marketCap := 800, volume24h := 300, high24h := 2600, low24h := 2400
    lastUpdated := 0 }

theorem c5_filter_semantics_witness :
    List.Sublist (Backend.getFilteredPrices ["BTC"] [demoBTC, demoETH]) [demoBTC, demoETH] ∧
    (demoBTC ∈ Backend.getFilteredPrices ["BTC"] [demoBTC, demoETH] ↔
      demoBTC ∈ [demoBTC, demoETH] ∧ ["BTC"].contains demoBTC.symbol = true) :=
  ⟨((c5_filter_semantics [demoBTC, demoETH] ["BTC"]).2 (by decide)).1,
   ((c5_filter_semantics [demoBTC, demoETH] ["BTC"]).2 (by decide)).2 demoBTC⟩

/-- C6: running any sequence of encode calls from the initial encoder
state produces one frame per call; the i-th frame carries frame id i (so
ids start at 0, increase by exactly one per encode, and are strictly
increasing across successive frames regardless of how each call's record
list was filtered), and every frame's total record count equals the
length of the record list actually included in it. -/
theorem c6_frame_ids_and_counts (calls : List Backend.EncodeCall) (i j : Nat)
    (hi : i < (Backend.encodeAll calls Backend.FlatBuffersAdapter.resetMetrics).1.length)
    (hj : j < (Backend.encodeAll calls Backend.FlatBuffersAdapter.resetMetrics).1.length) :
    (Backend.encodeAll calls Backend.FlatBuffersAdapter.resetMetrics).1.length = calls.length ∧
    ((Backend.encodeAll calls Backend.FlatBuffersAdapter.resetMetrics).1.get ⟨i, hi⟩).frameId = i ∧
    ((Backend.encodeAll calls Backend.FlatBuffersAdapter.resetMetrics).1.get ⟨i, hi⟩).totalCryptos =
      ((Backend.encodeAll calls Backend.FlatBuffersAdapter.resetMetrics).1.get ⟨i, hi⟩).cryptos.length ∧
    (i < j →
      ((Backend.encodeAll calls Backend.FlatBuffersAdapter.resetMetrics).1.get ⟨i, hi⟩).frameId <
        ((Backend.encodeAll calls Backend.FlatBuffersAdapter.resetMetrics).1.get ⟨j, hj⟩).frameId) := by
  have hr : Backend.FlatBuffersAdapter.resetMetrics.frameCounter = 0 := rfl
  have h1 := encodeAll_get_frameId calls Backend.FlatBuffersAdapter.resetMetrics i hi
  have h2 := encodeAll_get_frameId calls Backend.FlatBuffersAdapter.resetMetrics j hj
  refine ⟨encodeAll_fst_length calls _, by omega, encodeAll_get_totalCryptos calls _ i hi, ?_⟩
  intro hij
  omega

theorem c6_frame_ids_and_counts_witness :
    (Backend.encodeAll [⟨[demoBTC, demoETH], 5, 1⟩, ⟨[demoBTC], 6, 1⟩]
        Backend.FlatBuffersAdapter.resetMetrics).1.length = 2 ∧
    ((Backend.encodeAll [⟨[demoBTC, demoETH], 5, 1⟩, ⟨[demoBTC], 6, 1⟩]
        Backend.FlatBuffersAdapter.resetMetrics).1.get ⟨0, by decide⟩).frameId = 0 ∧
    ((Backend.encodeAll [⟨[demoBTC, demoETH], 5, 1⟩, ⟨[demoBTC], 6, 1⟩]
        Backend.FlatBuffersAdapter.resetMetrics).1.get ⟨0, by decide⟩).totalCryptos =
      ((Backend.encodeAll [⟨[demoBTC, demoETH], 5, 1⟩, ⟨[demoBTC], 6, 1⟩]
        Backend.FlatBuffersAdapter.resetMetrics).1.get ⟨0, by decide⟩).cryptos.length ∧
    (0 < 1 →
      ((Backend.encodeAll [⟨[demoBTC, demoETH], 5, 1⟩, ⟨[demoBTC], 6, 1⟩]
          Backend.FlatBuffersAdapter.resetMetrics).1.get ⟨0, by decide⟩).frameId <
        ((Backend.encodeAll [⟨[demoBTC, demoETH], 5, 1⟩, ⟨[demoBTC], 6, 1⟩]
          Backend.FlatBuffersAdapter.resetMetrics).1.get ⟨1, by decide⟩).frameId) :=
  c6_frame_ids_and_counts [⟨[demoBTC, demoETH], 5, 1⟩, ⟨[demoBTC], 6, 1⟩] 0 1
    (by decide) (by decide)

/-- C10: after resetMetrics, any sequence of n encode calls (across all
connections, since the counters are class statics) leaves getMetrics
reporting currentFrameId = n and totalEncoded = n. -/
theorem c10_encoder_counter_invariant (calls : List Backend.EncodeCall) :
    (Backend.FlatBuffersAdapter.getMetrics
        (Backend.encodeAll calls Backend.FlatBuffersAdapter.resetMetrics).2).currentFrameId =
      calls.length ∧
    (Backend.FlatBuffersAdapter.getMetrics
        (Backend.encodeAll calls Backend.FlatBuffersAdapter.resetMetrics).2).totalEncoded =
      calls.length := by
  have h := encodeAll_snd_counters calls Backend.FlatBuffersAdapter.resetMetrics
  have hr : Backend.FlatBuffersAdapter.resetMetrics.frameCounter = 0 := rfl
  have ht : Backend.FlatBuffersAdapter.resetMetrics.totalEncoded = 0 := rfl
  constructor
  · show (Backend.encodeAll calls Backend.FlatBuffersAdapter.resetMetrics).2.frameCounter =
      calls.length
    omega
  · show (Backend.encodeAll calls Backend.FlatBuffersAdapter.resetMetrics).2.totalEncoded =
      calls.length
    omega

/-- C9: with no latency samples recorded, calculateMetrics yields 0 for
latencyP50, latencyP95, latencyP99, averageLatency and minLatency. -/
theorem c9_empty_samples_zero_metrics :
    (Mobile.WebSocketManager.calculateMetrics []).latencyP50 = 0 ∧
    (Mobile.WebSocketManager.calculateMetrics []).latencyP95 = 0 ∧
    (Mobile.WebSocketManager.calculateMetrics []).latencyP99 = 0 ∧
    (Mobile.WebSocketManager.calculateMetrics []).averageLatency = 0 ∧
    (Mobile.WebSocketManager.calculateMetrics []).minLatency = 0 := by
  refine ⟨rfl, rfl, rfl, ?_, rfl⟩
  simp [Mobile.WebSocketManager.calculateMetrics]

/-! Helper lemmas for the reconnect backoff trace. -/

theorem min_mul_min (x b c : Nat) (hb : 1 ≤ b) : min (min x c * b) c = min (x * b) c := by
  rcases Nat.le_total x c with hx | hx
  · rw [Nat.min_eq_left hx]
  · rw [Nat.min_eq_right hx]
    have hcb : c ≤ c * b := Nat.le_mul_of_pos_right c hb
    have hxb : c ≤ x * b := le_trans hcb (Nat.mul_le_mul_right b hx)
    rw [Nat.min_eq_right hcb, Nat.min_eq_right hxb]

theorem reconnectDelaysFrom_formula (n : Nat) (st : Mobile.ReconnectState)
    (hst : st.currentReconnectDelay ≤ Mobile.WebSocketManager.maxReconnectDelay) :
    Mobile.reconnectDelaysFrom n st =
      (List.range n).map
        (fun i => min (st.currentReconnectDelay * 2 ^ i)
          Mobile.WebSocketManager.maxReconnectDelay) := by
  induction n generalizing st with
  | zero => rfl
  | succ m ih =>
    have hst2 : min (st.currentReconnectDelay * 2) Mobile.WebSocketManager.maxReconnectDelay ≤
        Mobile.WebSocketManager.maxReconnectDelay := Nat.min_le_right _ _
    have hrec := ih
      { currentReconnectDelay :=
          min (st.currentReconnectDelay * 2) Mobile.WebSocketManager.maxReconnectDelay
        reconnectAttempts := st.reconnectAttempts + 1 } hst2
    rw [List.range_succ_eq_map, List.map_cons, List.map_map]
    show st.currentReconnectDelay :: Mobile.reconnectDelaysFrom m
        { currentReconnectDelay :=
            min (st.currentReconnectDelay * 2) Mobile.WebSocketManager.maxReconnectDelay
          reconnectAttempts := st.reconnectAttempts + 1 } = _
    congr 1
    · rw [Nat.pow_zero, Nat.mul_one, Nat.min_eq_left hst]
    · rw [hrec]
      apply List.map_congr_left
      intro i _
      show min (min (st.currentReconnectDelay * 2)
          Mobile.WebSocketManager.maxReconnectDelay * 2 ^ i)
        Mobile.WebSocketManager.maxReconnectDelay =
        min (st.currentReconnectDelay * 2 ^ (i + 1))
          Mobile.WebSocketManager.maxReconnectDelay
      rw [min_mul_min _ _ _ Nat.one_le_two_pow]
      congr 1
      rw [Nat.pow_succ]
      ring

/-- C4: from the initial backoff state three consecutive failures
schedule reconnects after 2000, 4000 and 8000 ms; in general the n-th
consecutive failure after a reset uses delay min(2000 * 2^n, 30000), so
the delay doubles up to the 30000 ms cap; and a successful open resets
the backoff fields, so the attempt counter returns to 0 and the next
failure's delay is again 2000 ms. -/
theorem c4_reconnect_backoff (st : Mobile.ReconnectState) (n : Nat) :
    Mobile.reconnectDelaysFrom 3 Mobile.WebSocketManager.initialReconnectState =
      [2000, 4000, 8000] ∧
    Mobile.reconnectDelaysFrom n Mobile.WebSocketManager.initialReconnectState =
      (List.range n).map (fun i => min (2000 * 2 ^ i) 30000) ∧
    Mobile.WebSocketManager.onOpenBackoffReset st =
      Mobile.WebSocketManager.initialReconnectState ∧
    (Mobile.WebSocketManager.onOpenBackoffReset st).reconnectAttempts = 0 ∧
    (Mobile.WebSocketManager.scheduleReconnect
      (Mobile.WebSocketManager.onOpenBackoffReset st)).1 = 2000 ∧
    Mobile.reconnectDelaysFrom n (Mobile.WebSocketManager.onOpenBackoffReset st) =
      (List.range n).map (fun i => min (2000 * 2 ^ i) 30000) := by
  have hform := reconnectDelaysFrom_formula n Mobile.WebSocketManager.initialReconnectState
    (by decide)
  refine ⟨by decide, hform, rfl, rfl, rfl, hform⟩

/-! Helper lemmas for the percentile index arithmetic. -/

theorem floor_ratio_mul (count k : Nat) :
    Nat.floor (((k : ℚ) / 100) * (count : ℚ)) = count * k / 100 := by
  have h : ((k : ℚ) / 100) * (count : ℚ) = ((count * k : ℕ) : ℚ) / ((100 : ℕ) : ℚ) := by
    push_cast
    ring
  rw [h, Nat.floor_div_nat, Nat.floor_natCast]

theorem percentile_index_le (count k : Nat) (hk : k < 100) (hc : 0 < count) :
    count * k / 100 ≤ count - 1 := by
  have h1 : count * k < count * 100 := by
    exact Nat.mul_lt_mul_of_le_of_lt (Nat.le_refl count) hk hc
  have h2 : count * k / 100 < count := (Nat.div_lt_iff_lt_mul (by norm_num)).mpr h1
  omega

theorem percentile_code_eq_spec (samples : List Int) (k : Nat) (hk : k < 100) :
    ((samples.insertionSort (fun a b => a ≤ b))[(samples.insertionSort
        (fun a b => a ≤ b)).length * k / 100]?).getD 0 =
      Mobile.percentileSpec ((k : ℚ) / 100) samples := by
  rw [Mobile.percentileSpec]
  by_cases h0 : (samples.insertionSort (fun a b => a ≤ b)).length = 0
  · have he : samples.insertionSort (fun a b => a ≤ b) = [] := List.length_eq_zero.mp h0
    simp [he]
  · rw [if_neg h0]
    rw [floor_ratio_mul]
    rw [Nat.min_eq_left (percentile_index_le _ k hk (Nat.pos_of_ne_zero h0))]

/-- The 100-value sample set 10, 20, ..., 1000 named by the claim. -/
def sampleSet100 : List Int := (List.range 100).map (fun i => 10 * ((i : Int) + 1))

/-- C3: calculateMetrics computes each reported percentile by sorting a
copy of the samples ascending and indexing it at the floor of p times the
count clamped to 0..count-1 (with 0 for the empty set), for p = 0.5, 0.95
and 0.99; on the 100-value sample set 10..1000 this puts p50 at rank 50
(value 510) and p99 at rank 99 (value 1000). -/
theorem c3_percentile_method (samples : List Int) :
    (Mobile.WebSocketManager.calculateMetrics samples).latencyP50 =
      Mobile.percentileSpec ((50 : ℚ) / 100) samples ∧
    (Mobile.WebSocketManager.calculateMetrics samples).latencyP95 =
      Mobile.percentileSpec ((95 : ℚ) / 100) samples ∧
    (Mobile.WebSocketManager.calculateMetrics samples).latencyP99 =
      Mobile.percentileSpec ((99 : ℚ) / 100) samples ∧
    (Mobile.WebSocketManager.calculateMetrics sampleSet100).latencyP50 = 510 ∧
    (Mobile.WebSocketManager.calculateMetrics sampleSet100).latencyP99 = 1000 := by
  refine ⟨?_, ?_, ?_, by decide, by decide⟩
  · exact percentile_code_eq_spec samples 50 (by norm_num)
  · exact percentile_code_eq_spec samples 95 (by norm_num)
  · exact percentile_code_eq_spec samples 99 (by norm_num)

/-! Helper lemma for the disconnect-is-terminal property. -/

theorem post_disconnect_invariant (evs : List Mobile.MgrEvent) (s : Mobile.ManagerState)
    (hs : s.status = Mobile.ConnStatus.DISCONNECTED ∧ s.reconnectTimer = none)
    (hadm : ∀ e ∈ evs, e = Mobile.MgrEvent.closeEvt 1000 ∨
      ∃ b, e = Mobile.MgrEvent.timerFire b) :
    (evs.foldl Mobile.step s).status = Mobile.ConnStatus.DISCONNECTED ∧
      (evs.foldl Mobile.step s).reconnectTimer = none := by
  induction evs generalizing s with
  | nil => exact hs
  | cons e rest ih =>
    have he := hadm e (List.mem_cons_self e rest)
    have hrest : ∀ x ∈ rest, x = Mobile.MgrEvent.closeEvt 1000 ∨
        ∃ b, x = Mobile.MgrEvent.timerFire b :=
      fun x hx => hadm x (List.mem_cons_of_mem e hx)
    rcases he with h | ⟨b, h⟩
    · subst h
      exact ih _ ⟨rfl, hs.2⟩ hrest
    · subst h
      have hstep : Mobile.step s (Mobile.MgrEvent.timerFire b) = s := by
        simp [Mobile.step, hs.2]
      rw [List.foldl_cons, hstep]
      exact ih s hs hrest

/-- C8: after a locally initiated disconnect (which cancels any pending
reconnect timer and closes the socket with the normal-closure code 1000),
any further events that can occur without a new connect call — the close
callback for the normally closed socket, or a timer firing that was
already cleared — leave the manager DISCONNECTED with no reconnect timer
pending, forever. -/
theorem c8_disconnect_terminal (st : Mobile.ManagerState) (evs : List Mobile.MgrEvent)
    (hadm : ∀ e ∈ evs, e = Mobile.MgrEvent.closeEvt 1000 ∨
      ∃ b, e = Mobile.MgrEvent.timerFire b) :
    (evs.foldl Mobile.step (Mobile.step st Mobile.MgrEvent.disconnectCall)).status =
      Mobile.ConnStatus.DISCONNECTED ∧
    (evs.foldl Mobile.step (Mobile.step st Mobile.MgrEvent.disconnectCall)).reconnectTimer =
      none := by
  exact post_disconnect_invariant evs _ ⟨rfl, rfl⟩ hadm

theorem c8_disconnect_terminal_witness :
    (([Mobile.MgrEvent.closeEvt 1000, Mobile.MgrEvent.timerFire false]).foldl Mobile.step
        (Mobile.step
          { status := Mobile.ConnStatus.CONNECTED, wsLive := true
            reconnectTimer := some 2000
            backoff := { currentReconnectDelay := 4000, reconnectAttempts := 1 } }
          Mobile.MgrEvent.disconnectCall)).status = Mobile.ConnStatus.DISCONNECTED ∧
    (([Mobile.MgrEvent.closeEvt 1000, Mobile.MgrEvent.timerFire false]).foldl Mobile.step
        (Mobile.step
          { status := Mobile.ConnStatus.CONNECTED, wsLive := true
            reconnectTimer := some 2000
            backoff := { currentReconnectDelay := 4000, reconnectAttempts := 1 } }
          Mobile.MgrEvent.disconnectCall)).reconnectTimer = none :=
  c8_disconnect_terminal
    { status := Mobile.ConnStatus.CONNECTED, wsLive := true
      reconnectTimer := some 2000
      backoff := { currentReconnectDelay := 4000, reconnectAttempts := 1 } }
    [Mobile.MgrEvent.closeEvt 1000, Mobile.MgrEvent.timerFire false] (by decide)

/-- C1 counterexample: on the empty buffer (shorter than any minimum
header size) decode does not return DecodeError truncated, whichever way
the underlying FlatBuffers parse behaves (throwing or returning a view
model): its only failure value is the single generic thrown error. -/
theorem c1_counterexample :
    Mobile.FlatBuffersAdapter.decode (fun _ => Except.error "thrown during parse") [] ≠
      Except.error Mobile.DecodeError.truncated ∧
    Mobile.FlatBuffersAdapter.decode
        (fun _ => Except.ok { cryptos := [], frameId := 0, timestamp := 0, totalCryptos := 0 })
        [] ≠
      Except.error Mobile.DecodeError.truncated := by
  constructor
  · intro h
    simp [Mobile.FlatBuffersAdapter.decode] at h
  · intro h
    simp [Mobile.FlatBuffersAdapter.decode] at h

/-- C1 (amended): decode never distinguishes Truncated from Malformed —
whenever it fails it fails with the one generic thrown error
"Failed to decode binary data", for every buffer and every behaviour of
the underlying FlatBuffers parse; the minimum-size check lives only in
the separate isValidBuffer helper, which returns false exactly for
buffers shorter than 8 bytes (and decode never calls it). -/
theorem c1_decode_error_taxonomy
    (getRootAndConvert : List Nat → Except String Mobile.WorldStateViewModel)
    (buffer : List Nat) :
    (∀ e, Mobile.FlatBuffersAdapter.decode getRootAndConvert buffer = Except.error e →
      e = Mobile.DecodeError.thrown "Failed to decode binary data") ∧
    (Mobile.FlatBuffersAdapter.isValidBuffer buffer = false ↔ buffer.length < 8) := by
  constructor
  · intro e h
    rw [Mobile.FlatBuffersAdapter.decode] at h
    cases hg : getRootAndConvert buffer with
    | ok vm => rw [hg] at h; exact absurd h (by simp)
    | error s => rw [hg] at h; simpa using h.symm
  · rw [Mobile.FlatBuffersAdapter.isValidBuffer]
    by_cases hlen : buffer.length < 8
    · simp [hlen]
    · simp [hlen]

theorem c1_decode_error_taxonomy_witness :
    Mobile.DecodeError.thrown "Failed to decode binary data" =
      Mobile.DecodeError.thrown "Failed to decode binary data" ∧
    (Mobile.FlatBuffersAdapter.isValidBuffer [] = false ↔ ([] : List Nat).length < 8) :=
  ⟨(c1_decode_error_taxonomy (fun _ => Except.error "thrown during parse") []).1
      (Mobile.DecodeError.thrown "Failed to decode binary data") rfl,
   (c1_decode_error_taxonomy (fun _ => Except.error "thrown during parse") []).2⟩

/-- C2 counterexample: a CHANGE_FREQUENCY command requesting cadence 45
(not in 10, 20, 30) is applied: the connection's cadence becomes 45 and
the only reply is FREQUENCY_CHANGED — no Error with code INVALID_CADENCE
and no unchanged cadence. -/
theorem c2_counterexample :
    (Backend.handleCommand
        { type := some "CHANGE_FREQUENCY"
          payload := some { symbols := none, frequency := some 45 } }
        Backend.defaultClientFilter 7
        { activeConnections := 1, messagesPerSecond := 0
          totalMessagesSent := 0, uptime := 0 }).filter.frequency = some 45 ∧
    (Backend.handleCommand
        { type := some "CHANGE_FREQUENCY"
          payload := some { symbols := none, frequency := some 45 } }
        Backend.defaultClientFilter 7
        { activeConnections := 1, messagesPerSecond := 0
          totalMessagesSent := 0, uptime := 0 }).responses =
      [Backend.ServerResponse.frequencyChanged (some 45) 7] := by
  constructor
  · rfl
  · rfl

/-- C2 (amended): handleCommand performs no cadence validation: every
CHANGE_FREQUENCY command stores payload.frequency verbatim into the
connection's filter, cancels and restarts the repeating stream interval,
and replies FREQUENCY_CHANGED with that frequency; moreover no command
whatsoever makes handleCommand emit an Error response with code
INVALID_CADENCE (that code does not exist in the server). -/
theorem c2_change_frequency_unvalidated (cmd : Backend.IncomingMessage)
    (filter : Backend.ClientFilter) (now : Int) (stats : Backend.ServerStats) :
    (Backend.isChangeFrequencyCommand cmd = true →
      Backend.handleCommand cmd filter now stats =
        { filter := { filter with frequency := cmd.payload.bind (fun p => p.frequency) }
          responses := [Backend.ServerResponse.frequencyChanged
            (cmd.payload.bind (fun p => p.frequency)) now]
          streamRestarted := true }) ∧
    (∀ resp ∈ (Backend.handleCommand cmd filter now stats).responses, ∀ msg,
      resp ≠ Backend.ServerResponse.error msg (some "INVALID_CADENCE")) := by
  constructor
  · intro hfreq
    have htype : cmd.type = some "CHANGE_FREQUENCY" := by
      simpa [Backend.isChangeFrequencyCommand] using hfreq
    have hnotFilter : Backend.isFilterCoinsCommand cmd = false := by
      simp [Backend.isFilterCoinsCommand, htype]
    rw [Backend.handleCommand, hnotFilter]
    simp only [Bool.false_eq_true, if_false, hfreq, if_true]
  · intro resp hresp msg
    rw [Backend.handleCommand] at hresp
    split at hresp
    · simp only [List.mem_singleton] at hresp
      simp [hresp]
    · split at hresp
      · simp only [List.mem_singleton] at hresp
        simp [hresp]
      · split at hresp
        · simp only [List.mem_singleton] at hresp
          simp [hresp]
        · simp at hresp

theorem c2_change_frequency_unvalidated_witness :
    Backend.handleCommand
        { type := some "CHANGE_FREQUENCY"
          payload := some { symbols := none, frequency := some 20 } }
        Backend.defaultClientFilter 9
        { activeConnections := 1, messagesPerSecond := 0
          totalMessagesSent := 0, uptime := 0 } =
      { filter := { Backend.defaultClientFilter with frequency := some 20 }
        responses := [Backend.ServerResponse.frequencyChanged (some 20) 9]
        streamRestarted := true } :=
  (c2_change_frequency_unvalidated
      { type := some "CHANGE_FREQUENCY"
        payload := some { symbols := none, frequency := some 20 } }
      Backend.defaultClientFilter 9
      { activeConnections := 1, messagesPerSecond := 0
        totalMessagesSent := 0, uptime := 0 }).1 (by decide)

/-- C7 counterexample: a message with the unrecognized type string
UNKNOWN_TYPE and a defined payload passes the isClientCommand shape guard
and is then silently dropped by handleCommand: no response of any kind
(in particular no UnknownType error) is produced. -/
theorem c7_counterexample :
    Backend.isClientCommand
        { type := some "UNKNOWN_TYPE"
          payload := some { symbols := none, frequency := none } } = true ∧
    Backend.handleMessage
        (Backend.RawMessage.parsed
          { type := some "UNKNOWN_TYPE"
            payload := some { symbols := none, frequency := none } })
        Backend.defaultClientFilter 3
        { activeConnections := 1, messagesPerSecond := 0
          totalMessagesSent := 0, uptime := 0 } =
      { filter := Backend.defaultClientFilter, responses := [], streamRestarted := false } :=
  ⟨rfl, rfl⟩

/-- C7 (amended): a decoded message whose type string is unrecognized but
whose shape passes isClientCommand (any string type with a defined
payload) reaches handleCommand and is silently dropped with no response;
only a message failing the shape guard is answered, with the generic
"Invalid command format" error — there is no UnknownType error value and
the unknown-type case is a reachable silent fallthrough. -/
theorem c7_unknown_type_silently_dropped (m : Backend.IncomingMessage)
    (filter : Backend.ClientFilter) (now : Int) (stats : Backend.ServerStats) :
    (Backend.isClientCommand m = true →
      Backend.isFilterCoinsCommand m = false →
      Backend.isChangeFrequencyCommand m = false →
      Backend.isGetMetricsCommand m = false →
      Backend.handleMessage (Backend.RawMessage.parsed m) filter now stats =
        { filter := filter, responses := [], streamRestarted := false }) ∧
    (Backend.isClientCommand m = false →
      Backend.handleMessage (Backend.RawMessage.parsed m) filter now stats =
        { filter := filter
          responses := [Backend.ServerResponse.error "Invalid command format" none]
          streamRestarted := false }) := by
  constructor
  · intro hcc h1 h2 h3
    rw [Backend.handleMessage, hcc]
    simp only [if_true]
    rw [Backend.handleCommand, h1, h2, h3]
    simp
  · intro hcc
    rw [Backend.handleMessage, hcc]
    simp

theorem c7_unknown_type_silently_dropped_witness :
    Backend.handleMessage
        (Backend.RawMessage.parsed
          { type := some "BOGUS_COMMAND"
            payload := some { symbols := none, frequency := none } })
        Backend.defaultClientFilter 11
        { activeConnections := 2, messagesPerSecond := 0
          totalMessagesSent := 5, uptime := 100 } =
      { filter := Backend.defaultClientFilter, responses := [], streamRestarted := false } :=
  (c7_unknown_type_silently_dropped
      { type := some "BOGUS_COMMAND"
        payload := some { symbols := none, frequency := none } }
      Backend.defaultClientFilter 11
      { activeConnections := 2, messagesPerSecond := 0
        totalMessagesSent := 5, uptime := 100 }).1
    (by decide) (by decide) (by decide) (by decide)
